import Mathlib

/-!
Shallow embedding of the QR-Code-scanner application core:
the classifier, mode-dependent symbology selection and overlay renderer
of `src/components/Scanner.tsx`, the enrichment service of
`src/services/geminiService.ts`, the drawer enrichment effect of
`src/components/ResultDrawer.tsx`, and the application state machine
(active result, drawer flag, bounded history, enrichment-call log) of
`App.tsx`, together with theorems about them.
-/

namespace QRScanner

/-- Safety levels of an enrichment verdict, from `types.ts` (`AnalysisResult.safety`). -/
inductive Safety
  | safe
  | caution
  | unknown
  | danger
deriving DecidableEq, Repr

/-- A grounding source surfaced with an analysis, from `types.ts` (`sources` entries). -/
structure Source where
  title : String
  uri : String
deriving DecidableEq, Repr

/-- Enrichment payload, from `types.ts` (`AnalysisResult`). -/
structure AnalysisResult where
  safety : Safety
  summary : String
  category : String
  productName : Option String := none
  productDetails : Option String := none
  sources : List Source := []
deriving DecidableEq, Repr

/-- Classification tag of a scan, from `types.ts` (`ScanResult.type`). -/
inductive ScanType
  | url
  | text
  | wifi
  | product
  | other
deriving DecidableEq, Repr

/-- One decoded observation, from `types.ts` (`ScanResult`). -/
structure ScanResult where
  data : String
  format : String
  timestamp : Nat
  type : ScanType
  analysis : Option AnalysisResult := none
deriving DecidableEq, Repr

/-- The zxing symbology identifiers used by `Scanner.tsx` (`BarcodeFormat`). -/
inductive BarcodeFormat
  | AZTEC
  | CODABAR
  | CODE_39
  | CODE_93
  | CODE_128
  | DATA_MATRIX
  | EAN_8
  | EAN_13
  | ITF
  | MAXICODE
  | PDF_417
  | QR_CODE
  | RSS_14
  | RSS_EXPANDED
  | UPC_A
  | UPC_E
  | UPC_EAN_EXTENSION
deriving DecidableEq, Fintype, Repr

open BarcodeFormat

/-- `getFormatName` from `Scanner.tsx`: maps a zxing symbology to its display string. -/
def getFormatName : BarcodeFormat → String
  | .AZTEC => "AZTEC"
  | .CODABAR => "CODABAR"
  | .CODE_39 => "CODE_39"
  | .CODE_93 => "CODE_93"
  | .CODE_128 => "CODE_128"
  | .DATA_MATRIX => "DATA_MATRIX"
  | .EAN_8 => "EAN_8"
  | .EAN_13 => "EAN_13"
  | .ITF => "ITF"
  | .MAXICODE => "MAXICODE"
  | .PDF_417 => "PDF_417"
  | .QR_CODE => "QR_CODE"
  | .RSS_14 => "RSS_14"
  | .RSS_EXPANDED => "RSS_EXPANDED"
  | .UPC_A => "UPC_A"
  | .UPC_E => "UPC_E"
  | .UPC_EAN_EXTENSION => "UPC_EAN_EXTENSION"

/-- `is2DFormat` from `Scanner.tsx`: membership in the area-class symbology list. -/
def is2DFormat (format : BarcodeFormat) : Bool :=
  [QR_CODE, AZTEC, DATA_MATRIX, MAXICODE, PDF_417].contains format

/-- JS `String.prototype.startsWith`, modelled over the character list:
`strStartsWith s p` holds when `p` is a prefix of `s`. -/
def strStartsWith (s p : String) : Bool :=
  p.data.isPrefixOf s.data

/-- `determineType` from `Scanner.tsx`: classifies a decoded payload, rules in order. -/
def determineType (data : String) (format : String) : ScanType :=
  if strStartsWith data "http" then .url
  else if strStartsWith data "WIFI:" then .wifi
  else if ["EAN_8", "EAN_13", "UPC_A", "UPC_E", "CODE_39", "CODE_128"].contains format then .product
  else .text

/-- The three recognition modes of `Scanner.tsx` (`ScanMode`). -/
inductive ScanMode
  | auto
  | qr
  | barcode
deriving DecidableEq, Repr

/-- The symbology list pushed into the decode hints per mode, from the
`useEffect` format-selection block of `Scanner.tsx`. -/
def formatsForMode : ScanMode → List BarcodeFormat
  | .qr =>
      [QR_CODE, AZTEC, DATA_MATRIX, PDF_417]
  | .barcode =>
      [CODE_128, CODE_39, CODE_93, EAN_13, EAN_8, UPC_A, UPC_E, ITF, CODABAR, RSS_14]
  | .auto =>
      [QR_CODE, AZTEC, DATA_MATRIX, CODE_128, CODE_39, EAN_13, EAN_8, UPC_A, UPC_E, PDF_417]

/-- A 2D geometry point as reported by a decode event. -/
structure Point where
  x : Int
  y : Int
deriving DecidableEq, Repr

/-- The drawing instruction produced by `drawResultOverlay` in `Scanner.tsx`.
`closedFilledPolygon ps` is the closed path through `ps` in order
(`moveTo`/`lineTo`/`closePath`) stroked and filled; for an empty `ps` the path
is empty and nothing is drawn (the source's `length > 0` guard only skips path
construction, and stroking or filling an empty path draws nothing).
`lineSegment a b` is the stroked glow line from `a` to `b`; `noDraw` is an
empty stroke. -/
inductive DrawCmd
  | closedFilledPolygon (points : List Point)
  | lineSegment (a b : Point)
  | noDraw
deriving DecidableEq, Repr

/-- `drawResultOverlay` from `Scanner.tsx`, reduced to the geometry it draws:
area-class symbologies get the closed filled polygon through all reported
points in order; line-class symbologies get a segment from the first to the
last reported point when at least two points are reported, and nothing
otherwise. -/
def drawResultOverlay (points : List Point) (format : BarcodeFormat) : DrawCmd :=
  if is2DFormat format then
    .closedFilledPolygon points
  else
    match points with
    | p :: q :: rest => .lineSegment p (List.getLast (p :: q :: rest) (by simp))
    | _ => .noDraw

/-- `handleDecode` from `Scanner.tsx`, reduced to ScanResult creation: a decode
event delivered while `isScanningRef.current` is false is dropped and no
ScanResult is built; otherwise the ScanResult handed to `onScan` is built from
the decoded text, the format name, the current time and the classifier. -/
def handleDecode (isScanning : Bool) (text : String) (format : BarcodeFormat) (now : Nat) :
    Option ScanResult :=
  if isScanning then
    some { data := text
           format := getFormatName format
           timestamp := now
           type := determineType text (getFormatName format)
           analysis := none }
  else
    none

/-- The missing-credential test of `analyzeQRContent` in `geminiService.ts`:
`!apiKey || apiKey === 'undefined' || apiKey === ''`, with `none` standing for
an undefined `process.env.API_KEY`. -/
def missingKey : Option String → Bool
  | none => true
  | some k => k = "" || k = "undefined"

/-- The `web` field of a grounding chunk (`chunk.web.title`, `chunk.web.uri`);
`none` components stand for absent JS fields. -/
structure WebInfo where
  title : Option String
  uri : Option String
deriving DecidableEq, Repr

/-- One grounding chunk of the model response (`groundingMetadata.groundingChunks`). -/
structure GroundingChunk where
  web : Option WebInfo
deriving DecidableEq, Repr

/-- The observable content of a successful `generateContent` response:
`respText` is `response.text` (absent allowed), `parsed` is the outcome of
`JSON.parse` on the sanitized text (`none` when the parse throws), and
`chunks` the grounding chunks. -/
structure NetResponse where
  respText : Option String
  parsed : Option AnalysisResult
  chunks : List GroundingChunk
deriving DecidableEq, Repr

/-- Outcome of the one network interaction of `analyzeQRContent`: `failure`
covers every thrown error (network, quota, initialization), `success` a
response that came back. -/
inductive NetOutcome
  | failure
  | success (resp : NetResponse)
deriving DecidableEq, Repr

/-- Source extraction from grounding chunks in `analyzeQRContent`: a chunk
with a `web` field becomes `{title: web.title || 'Web Source', uri: web.uri}`
and survives the final filter only when its `uri` is truthy (present and
non-empty). -/
def extractSources (chunks : List GroundingChunk) : List Source :=
  chunks.filterMap fun c =>
    match c.web with
    | none => none
    | some w =>
        match w.uri with
        | none => none
        | some u =>
            if u = "" then none
            else some { title := match w.title with
                          | none => "Web Source"
                          | some t => if t = "" then "Web Source" else t
                        uri := u }

/-- The non-JSON fallback summary of `analyzeQRContent`:
`response.text?.substring(0, 150) + '...'` — concatenation happens before the
`||`, so an absent `response.text` yields the string "undefined..." and the
`|| 'No description available.'` alternative is unreachable. -/
def fallbackSummary (respText : Option String) : String :=
  (match respText with
   | some t => t.take 150
   | none => "undefined") ++ "..."

/-- `analyzeQRContent` from `geminiService.ts`, with the credential and the
network outcome as explicit inputs. Returns the AnalysisResult together with
a flag recording whether network I/O was attempted. The function is total:
every branch, including the catch-all for thrown errors (`NetOutcome.failure`),
returns a result. -/
def analyzeQRContent (apiKey : Option String) (net : NetOutcome)
    (content : String) (format : Option String) : AnalysisResult × Bool :=
  if missingKey apiKey then
    ({ safety := .unknown
       category := "Configuration Error"
       summary := "API Key is missing. Please add VITE_API_KEY to your .env file or GitHub Secrets." },
     false)
  else
    match net with
    | .failure =>
        ({ safety := .unknown
           category := "Unknown"
           summary := "Could not perform online search. Check connection or API quota." },
         true)
    | .success resp =>
        let result : AnalysisResult :=
          match resp.parsed with
          | some r => r
          | none =>
              { safety := .unknown
                category := "Search Result"
                summary := fallbackSummary resp.respText
                productName := some "Detected Item" }
        ({ result with sources := extractSources resp.chunks }, true)

/-- One logged invocation of `analyzeQRContent`, as issued by the drawer
effect: the arguments of the call plus the timestamp used to merge its
completion back into history. -/
structure EnrichCall where
  data : String
  format : String
  timestamp : Nat
deriving DecidableEq, Repr

/-- The application state owned by `App.tsx`: the active result driving the
drawer, the drawer-open flag, the bounded history, and a log of the
enrichment calls issued so far by the drawer effect. -/
structure AppState where
  scannedResult : Option ScanResult
  isDrawerOpen : Bool
  history : List ScanResult
  calls : List EnrichCall
deriving DecidableEq, Repr

/-- The `useEffect` of `ResultDrawer.tsx` on a newly surfaced result: a result
that already carries `analysis` displays the cached payload and issues no
call; otherwise exactly one `analyzeQRContent(result.data, result.format)`
call is issued and logged. -/
def drawerEffect (r : ScanResult) (calls : List EnrichCall) : List EnrichCall :=
  if r.analysis.isSome then calls
  else calls ++ [{ data := r.data, format := r.format, timestamp := r.timestamp }]

/-- `handleAnalysisComplete` from `App.tsx`: map over history setting
`analysis` on every entry whose timestamp equals the completed call's
timestamp, leaving every other entry as it is. -/
def mergeAnalysis (timestamp : Nat) (analysis : AnalysisResult)
    (history : List ScanResult) : List ScanResult :=
  history.map fun item =>
    if item.timestamp = timestamp then { item with analysis := some analysis }
    else item

/-- The surface-level events of `App.tsx`: a decode delivered through
`onScan` (`handleScan`), a tap on history entry `i` (the history item
`onClick`), closing the drawer (`closeDrawer`), and the completion of an
enrichment call (`handleAnalysisComplete`). -/
inductive Event
  | scan (r : ScanResult)
  | openHistory (i : Nat)
  | closeDrawer
  | analysisComplete (timestamp : Nat) (analysis : AnalysisResult)

/-- One serialized event-handling step of `App.tsx`. `handleScan` drops the
event while the drawer is open; otherwise it sets the active result, opens
the drawer, prepends to history trimmed to 50, and the drawer effect fires.
A history tap sets the active result and opens the drawer, firing the drawer
effect, and inserts nothing; a tap outside the list is a no-op. Closing the
drawer clears the active result synchronously. An enrichment completion
merges into history by timestamp. -/
def step (s : AppState) : Event → AppState
  | .scan r =>
      if s.isDrawerOpen then s
      else
        { scannedResult := some r
          isDrawerOpen := true
          history := (r :: s.history).take 50
          calls := drawerEffect r s.calls }
  | .openHistory i =>
      match s.history[i]? with
      | some item =>
          { s with scannedResult := some item
                   isDrawerOpen := true
                   calls := drawerEffect item s.calls }
      | none => s
  | .closeDrawer =>
      { s with isDrawerOpen := false, scannedResult := none }
  | .analysisComplete t a =>
      { s with history := mergeAnalysis t a s.history }

/-- The initial state of `App.tsx`: no active result, drawer closed, empty
history, no enrichment call issued. -/
def initState : AppState :=
  { scannedResult := none, isDrawerOpen := false, history := [], calls := [] }

/-- Run a sequence of events from the initial state. -/
def run (evs : List Event) : AppState :=
  evs.foldl step initState

/-- A sample decoded result used to instantiate theorems at concrete inputs. -/
def sampleResult : ScanResult :=
  { data := "hello", format := "QR_CODE", timestamp := 1, type := ScanType.text, analysis := none }

/-- A sample enrichment payload used to instantiate theorems at concrete inputs. -/
def sampleAnalysis : AnalysisResult :=
  { safety := Safety.safe, summary := "ok", category := "Website" }

/-- Claim C1: the classifier evaluates its rules in order with first match
winning and returns exactly one tag: a payload beginning with the HTTP(S)
scheme prefix is `url`; otherwise a payload beginning with the literal prefix
`WIFI:` is `wifi`; otherwise a format among EAN_8, EAN_13, UPC_A, UPC_E,
CODE_39, CODE_128 gives `product`; otherwise the tag is `text`. -/
theorem C1_classifier_rules (data format : String) :
    (strStartsWith data "http" = true → determineType data format = ScanType.url) ∧
    (strStartsWith data "http" = false → strStartsWith data "WIFI:" = true →
      determineType data format = ScanType.wifi) ∧
    (strStartsWith data "http" = false → strStartsWith data "WIFI:" = false →
      format ∈ ["EAN_8", "EAN_13", "UPC_A", "UPC_E", "CODE_39", "CODE_128"] →
      determineType data format = ScanType.product) ∧
    (strStartsWith data "http" = false → strStartsWith data "WIFI:" = false →
      format ∉ ["EAN_8", "EAN_13", "UPC_A", "UPC_E", "CODE_39", "CODE_128"] →
      determineType data format = ScanType.text) := by
  refine ⟨fun h1 => ?_, fun h1 h2 => ?_, fun h1 h2 h3 => ?_, fun h1 h2 h3 => ?_⟩
  · simp [determineType, h1]
  · simp [determineType, h1, h2]
  · simp only [List.mem_cons, List.not_mem_nil, or_false] at h3
    simp [determineType, h1, h2]
    tauto
  · simp only [List.mem_cons, List.not_mem_nil, or_false] at h3
    push_neg at h3
    simp [determineType, h1, h2]
    tauto

/-- Witness for C1 at the spec's scenario inputs. -/
theorem C1_classifier_rules_witness :
    determineType "https://example.com" "QR_CODE" = ScanType.url ∧
    determineType "WIFI:T:WPA;S:Home;P:pass;;" "QR_CODE" = ScanType.wifi ∧
    determineType "012345678905" "UPC_A" = ScanType.product ∧
    determineType "hello world" "QR_CODE" = ScanType.text :=
  ⟨(C1_classifier_rules "https://example.com" "QR_CODE").1 (by decide),
   (C1_classifier_rules "WIFI:T:WPA;S:Home;P:pass;;" "QR_CODE").2.1 (by decide) (by decide),
   (C1_classifier_rules "012345678905" "UPC_A").2.2.1 (by decide) (by decide) (by decide),
   (C1_classifier_rules "hello world" "QR_CODE").2.2.2 (by decide) (by decide) (by decide)⟩

/-- Claim C8: the symbology set handed to the decode capability has exactly
the specified membership in each recognition mode: qr = QR, Aztec,
DataMatrix, PDF417; barcode = Code128, Code39, Code93, EAN13, EAN8, UPCA,
UPCE, ITF, Codabar, RSS14; auto = QR, Aztec, DataMatrix, Code128, Code39,
EAN13, EAN8, UPCA, UPCE, PDF417. -/
theorem C8_mode_format_sets :
    ∀ f : BarcodeFormat,
      (f ∈ formatsForMode ScanMode.qr ↔
        f ∈ [QR_CODE, AZTEC, DATA_MATRIX, PDF_417]) ∧
      (f ∈ formatsForMode ScanMode.barcode ↔
        f ∈ [CODE_128, CODE_39, CODE_93, EAN_13, EAN_8, UPC_A, UPC_E, ITF, CODABAR, RSS_14]) ∧
      (f ∈ formatsForMode ScanMode.auto ↔
        f ∈ [QR_CODE, AZTEC, DATA_MATRIX, CODE_128, CODE_39, EAN_13, EAN_8, UPC_A, UPC_E, PDF_417]) := by
  decide

/-- Claim C9: the overlay draws area-class symbologies (exactly QR, Aztec,
DataMatrix, MaxiCode, PDF417) as the closed filled polygon through all
reported points in order, line-class symbologies as a segment from the first
to the last reported point, and draws no line for a line-class event with
fewer than two points. -/
theorem C9_overlay_geometry (points : List Point) (format : BarcodeFormat) :
    (is2DFormat format = true →
      drawResultOverlay points format = DrawCmd.closedFilledPolygon points) ∧
    (is2DFormat format = false → ∀ p l,
      points.head? = some p → points.getLast? = some l → 2 ≤ points.length →
      drawResultOverlay points format = DrawCmd.lineSegment p l) ∧
    (is2DFormat format = false → points.length < 2 →
      drawResultOverlay points format = DrawCmd.noDraw) ∧
    (is2DFormat format = true ↔
      format ∈ [QR_CODE, AZTEC, DATA_MATRIX, MAXICODE, PDF_417]) := by
  refine ⟨fun h => ?_, fun h p l hp hl hlen => ?_, fun h hlen => ?_, ?_⟩
  · simp [drawResultOverlay, h]
  · match points, hp, hl, hlen with
    | a :: b :: rest, hp, hl, _ =>
        have hpa : p = a := by simpa using hp.symm
        have hla : List.getLast (a :: b :: rest) (by simp) = l := by
          have := List.getLast?_eq_getLast (a :: b :: rest) (by simp)
          rw [this] at hl
          exact Option.some.inj hl
        subst hpa
        simp [drawResultOverlay, h, hla]
  · match points, hlen with
    | [], _ => simp [drawResultOverlay, h]
    | [a], _ => simp [drawResultOverlay, h]
  · cases format <;> simp [is2DFormat]

/-- Witness for C9: a four-point QR polygon, a three-point line-class
segment from first to last point, and a one-point line-class no-draw. -/
theorem C9_overlay_geometry_witness :
    drawResultOverlay [⟨0, 0⟩, ⟨4, 0⟩, ⟨4, 4⟩, ⟨0, 4⟩] BarcodeFormat.QR_CODE
      = DrawCmd.closedFilledPolygon [⟨0, 0⟩, ⟨4, 0⟩, ⟨4, 4⟩, ⟨0, 4⟩] ∧
    drawResultOverlay [⟨0, 0⟩, ⟨5, 0⟩, ⟨9, 0⟩] BarcodeFormat.CODE_128
      = DrawCmd.lineSegment ⟨0, 0⟩ ⟨9, 0⟩ ∧
    drawResultOverlay [⟨3, 3⟩] BarcodeFormat.CODE_128 = DrawCmd.noDraw :=
  ⟨(C9_overlay_geometry [⟨0, 0⟩, ⟨4, 0⟩, ⟨4, 4⟩, ⟨0, 4⟩] BarcodeFormat.QR_CODE).1 (by decide),
   (C9_overlay_geometry [⟨0, 0⟩, ⟨5, 0⟩, ⟨9, 0⟩] BarcodeFormat.CODE_128).2.1 (by decide)
     ⟨0, 0⟩ ⟨9, 0⟩ (by decide) (by decide) (by decide),
   (C9_overlay_geometry [⟨3, 3⟩] BarcodeFormat.CODE_128).2.2.1 (by decide) (by decide)⟩

/-- Appending the literal ellipsis makes any string non-empty. -/
theorem append_dots_ne_empty (s : String) : s ++ "..." ≠ "" := by
  intro h
  have hlen := congrArg String.length h
  rw [String.length_append] at hlen
  have h3 : ("..." : String).length = 3 := rfl
  have h0 : ("" : String).length = 0 := rfl
  rw [h3, h0] at hlen
  omega

/-- Claim C4: `analyzeQRContent` is total (every branch of the embedding,
including the catch-all for thrown errors, yields an AnalysisResult — it
never throws to its caller); a missing credential yields a
`Configuration Error` result with safety unknown and a non-empty summary
with no network attempt; a thrown error or a non-parseable response yields
a degraded result with safety unknown and a non-empty summary. -/
theorem C4_analyze_total_and_degraded (apiKey : Option String) (net : NetOutcome)
    (content : String) (format : Option String) :
    (missingKey apiKey = true →
      (analyzeQRContent apiKey net content format).1.category = "Configuration Error" ∧
      (analyzeQRContent apiKey net content format).1.safety = Safety.unknown ∧
      (analyzeQRContent apiKey net content format).1.summary ≠ "" ∧
      (analyzeQRContent apiKey net content format).2 = false) ∧
    (missingKey apiKey = false → net = NetOutcome.failure →
      (analyzeQRContent apiKey net content format).1.safety = Safety.unknown ∧
      (analyzeQRContent apiKey net content format).1.summary ≠ "" ∧
      (analyzeQRContent apiKey net content format).1.category = "Unknown") ∧
    (∀ resp, missingKey apiKey = false → net = NetOutcome.success resp → resp.parsed = none →
      (analyzeQRContent apiKey net content format).1.safety = Safety.unknown ∧
      (analyzeQRContent apiKey net content format).1.summary ≠ "") := by
  refine ⟨fun h1 => ?_, fun h1 h2 => ?_, fun resp h1 h2 h3 => ?_⟩
  · refine ⟨?_, ?_, ?_, ?_⟩ <;> simp [analyzeQRContent, h1]
  · subst h2
    refine ⟨?_, ?_, ?_⟩ <;> simp [analyzeQRContent, h1]
  · subst h2
    refine ⟨?_, ?_⟩
    · simp [analyzeQRContent, h1, h3]
    · have hs : (analyzeQRContent apiKey (NetOutcome.success resp) content format).1.summary
          = fallbackSummary resp.respText := by
        simp [analyzeQRContent, h1, h3]
      rw [hs]
      exact append_dots_ne_empty _

/-- Witness for C4: a missing credential with the network down, and a present
credential with the network down, at concrete inputs. -/
theorem C4_analyze_total_and_degraded_witness :
    (analyzeQRContent none NetOutcome.failure "x" none).1.category = "Configuration Error" ∧
    (analyzeQRContent none NetOutcome.failure "x" none).2 = false ∧
    (analyzeQRContent (some "k") NetOutcome.failure "x" none).1.safety = Safety.unknown :=
  ⟨((C4_analyze_total_and_degraded none NetOutcome.failure "x" none).1 (by decide)).1,
   ((C4_analyze_total_and_degraded none NetOutcome.failure "x" none).1 (by decide)).2.2.2,
   ((C4_analyze_total_and_degraded (some "k") NetOutcome.failure "x" none).2.1 (by decide) rfl).1⟩

/-- A decode surfaced while the drawer is open is dropped without any state
change (`handleScan` returns early). -/
theorem step_scan_open (s : AppState) (r : ScanResult) (h : s.isDrawerOpen = true) :
    step s (Event.scan r) = s := by
  simp [step, h]

/-- A decode surfaced while the drawer is closed leaves the drawer open. -/
theorem step_scan_closed_open (s : AppState) (r : ScanResult) (h : s.isDrawerOpen = false) :
    (step s (Event.scan r)).isDrawerOpen = true := by
  simp [step, h]

/-- Any sequence of decode events delivered while the drawer is open changes
nothing at all. -/
theorem foldl_scans_open (evs : List Event) (s : AppState)
    (hall : ∀ e ∈ evs, ∃ r, e = Event.scan r) (h : s.isDrawerOpen = true) :
    evs.foldl step s = s := by
  induction evs with
  | nil => rfl
  | cons e rest ih =>
      obtain ⟨r, rfl⟩ := hall e (List.mem_cons_self e rest)
      rw [List.foldl_cons, step_scan_open s r h]
      exact ih (fun e he => hall e (List.mem_cons_of_mem _ he))

/-- Claim C7: a decode event delivered while the controller is paused (the
drawer is open) creates no ScanResult at the scanner level, and its delivery
to `handleScan` is dropped rather than queued: history, the active result,
the drawer flag and the call log are all unchanged. -/
theorem C7_paused_decode_dropped (s : AppState) (r : ScanResult)
    (text : String) (format : BarcodeFormat) (now : Nat) :
    handleDecode false text format now = none ∧
    (s.isDrawerOpen = true → step s (Event.scan r) = s) :=
  ⟨rfl, step_scan_open s r⟩

/-- Witness for C7: a paused decode builds nothing, and a scan into an
open-drawer state is the identity. -/
theorem C7_paused_decode_dropped_witness :
    handleDecode false "hello" BarcodeFormat.QR_CODE 5 = none ∧
    step { scannedResult := none, isDrawerOpen := true, history := [], calls := [] }
        (Event.scan sampleResult)
      = { scannedResult := none, isDrawerOpen := true, history := [], calls := [] } :=
  ⟨(C7_paused_decode_dropped initState sampleResult "hello" BarcodeFormat.QR_CODE 5).1,
   (C7_paused_decode_dropped
      { scannedResult := none, isDrawerOpen := true, history := [], calls := [] }
      sampleResult "hello" BarcodeFormat.QR_CODE 5).2 rfl⟩

/-- Claim C2: over any sequence of surface operations, surfacing while the
drawer is open (the state in which the surfaced result's enrichment is
mid-flight) issues no call at all, and from any state at most one enrichment
call in total is issued by a run of surface operations — so at most one call
per distinct timestamp while a first enrichment for it is pending. -/
theorem C2_at_most_one_pending_call (s : AppState) (evs : List Event)
    (hall : ∀ e ∈ evs, ∃ r, e = Event.scan r) :
    (s.isDrawerOpen = true → (evs.foldl step s).calls = s.calls) ∧
    (evs.foldl step s).calls.length ≤ s.calls.length + 1 := by
  constructor
  · intro h
    rw [foldl_scans_open evs s hall h]
  · cases evs with
    | nil => simp
    | cons e rest =>
        obtain ⟨r, rfl⟩ := hall e (List.mem_cons_self e rest)
        have hrest : ∀ e ∈ rest, ∃ r, e = Event.scan r :=
          fun e he => hall e (List.mem_cons_of_mem _ he)
        rw [List.foldl_cons]
        cases ho : s.isDrawerOpen with
        | true =>
            rw [step_scan_open s r ho, foldl_scans_open rest s hrest ho]
            omega
        | false =>
            rw [foldl_scans_open rest _ hrest (step_scan_closed_open s r ho)]
            simp only [step, ho, Bool.false_eq_true, if_false, drawerEffect]
            cases r.analysis <;> simp

/-- Witness for C2: two consecutive surface operations from the initial state
issue exactly one call. -/
theorem C2_at_most_one_pending_call_witness :
    (([Event.scan sampleResult, Event.scan sampleResult].foldl step initState)).calls.length
      ≤ initState.calls.length + 1 :=
  (C2_at_most_one_pending_call initState [Event.scan sampleResult, Event.scan sampleResult]
    (by
      intro e he
      rcases (by simpa using he : e = Event.scan sampleResult ∨ e = Event.scan sampleResult) with h | h <;>
        exact ⟨sampleResult, h⟩)).2

/-- Claim C3: surfacing a result into the drawer issues no enrichment call
when its analysis is already cached, and exactly one call (appended to the
log with the result's data, format and timestamp) when it is absent — on a
fresh scan and equally on re-open of a history entry that still lacks
analysis (enrichment pending or previously failed). -/
theorem C3_cache_hit_single_fetch (s : AppState) (r : ScanResult) (i : Nat) (item : ScanResult) :
    (s.isDrawerOpen = false → r.analysis.isSome = true →
      (step s (Event.scan r)).calls = s.calls) ∧
    (s.isDrawerOpen = false → r.analysis = none →
      (step s (Event.scan r)).calls
        = s.calls ++ [{ data := r.data, format := r.format, timestamp := r.timestamp }]) ∧
    (s.history[i]? = some item → item.analysis.isSome = true →
      (step s (Event.openHistory i)).calls = s.calls) ∧
    (s.history[i]? = some item → item.analysis = none →
      (step s (Event.openHistory i)).calls
        = s.calls ++ [{ data := item.data, format := item.format, timestamp := item.timestamp }]) := by
  refine ⟨fun h1 h2 => ?_, fun h1 h2 => ?_, fun h1 h2 => ?_, fun h1 h2 => ?_⟩ <;>
    simp [step, h1, drawerEffect, h2]

/-- Witness for C3: a fresh scan of a result without analysis issues one
call; re-opening a history entry with cached analysis issues none. -/
theorem C3_cache_hit_single_fetch_witness :
    (step initState (Event.scan sampleResult)).calls
      = [{ data := "hello", format := "QR_CODE", timestamp := 1 }] ∧
    (step { scannedResult := none, isDrawerOpen := false,
            history := [{ sampleResult with analysis := some sampleAnalysis }], calls := [] }
        (Event.openHistory 0)).calls = [] :=
  ⟨(C3_cache_hit_single_fetch initState sampleResult 0 sampleResult).2.1 rfl rfl,
   (C3_cache_hit_single_fetch
      { scannedResult := none, isDrawerOpen := false,
        history := [{ sampleResult with analysis := some sampleAnalysis }], calls := [] }
      sampleResult 0 { sampleResult with analysis := some sampleAnalysis }).2.2.1 rfl rfl⟩

/-- Every step keeps the history within the 50-entry bound. -/
theorem step_history_bound (s : AppState) (e : Event) (h : s.history.length ≤ 50) :
    (step s e).history.length ≤ 50 := by
  cases e with
  | scan r =>
      cases ho : s.isDrawerOpen with
      | true => simpa [step, ho] using h
      | false =>
          simp only [step, ho, Bool.false_eq_true, if_false, List.length_take]
          omega
  | openHistory i =>
      cases hh : s.history[i]? <;> simpa [step, hh] using h
  | closeDrawer => simpa [step] using h
  | analysisComplete t a => simpa [step, mergeAnalysis] using h

/-- Folding any event sequence keeps the history within the 50-entry bound. -/
theorem foldl_history_bound (evs : List Event) (s : AppState) (h : s.history.length ≤ 50) :
    (evs.foldl step s).history.length ≤ 50 := by
  induction evs generalizing s with
  | nil => exact h
  | cons e rest ih => exact ih (step s e) (step_history_bound s e h)

/-- Claim C5: the history is bounded to 50 entries in every reachable state;
a newly surfaced scan is inserted exactly once at the head (newest first),
with the oldest entry evicted when the bound is full; re-opening a history
entry inserts nothing, and closing the drawer leaves history unchanged. -/
theorem C5_history_bounded_newest_first (evs : List Event) (s : AppState)
    (r : ScanResult) (i : Nat) :
    (run evs).history.length ≤ 50 ∧
    (s.isDrawerOpen = false →
      (step s (Event.scan r)).history = (r :: s.history).take 50 ∧
      (s.history.length = 50 →
        (step s (Event.scan r)).history = r :: s.history.dropLast)) ∧
    (step s (Event.openHistory i)).history = s.history ∧
    (step s Event.closeDrawer).history = s.history := by
  refine ⟨?_, fun h1 => ⟨?_, fun h2 => ?_⟩, ?_, ?_⟩
  · exact foldl_history_bound evs initState (by simp [initState])
  · simp [step, h1]
  · have htake : (r :: s.history).take 50 = r :: s.history.take 49 := rfl
    have hdrop : s.history.dropLast = s.history.take 49 := by
      rw [List.dropLast_eq_take, h2]
    simp [step, h1, htake, hdrop]
  · cases hh : s.history[i]? <;> simp [step, hh]
  · simp [step]

/-- Witness for C5: surfacing into a full 50-entry history keeps the new
entry at the head and drops the oldest. -/
theorem C5_history_bounded_newest_first_witness :
    (step { scannedResult := none, isDrawerOpen := false,
            history := List.replicate 50 sampleResult, calls := [] }
        (Event.scan sampleResult)).history
      = sampleResult :: (List.replicate 50 sampleResult).dropLast :=
  ((C5_history_bounded_newest_first []
      { scannedResult := none, isDrawerOpen := false,
        history := List.replicate 50 sampleResult, calls := [] }
      sampleResult 0).2.1 rfl).2 (by simp)

/-- Merging into a history in which no entry carries the completed
timestamp is the identity. -/
theorem mergeAnalysis_no_match (t : Nat) (a : AnalysisResult) :
    ∀ h : List ScanResult, (∀ item ∈ h, item.timestamp ≠ t) → mergeAnalysis t a h = h := by
  intro h
  induction h with
  | nil => intro _; rfl
  | cons hd tl ih =>
      intro hne
      simp only [mergeAnalysis, List.map_cons]
      rw [if_neg (hne hd (List.mem_cons_self hd tl))]
      have htl := ih (fun x hx => hne x (List.mem_cons_of_mem _ hx))
      simp only [mergeAnalysis] at htl
      rw [htl]

/-- Claim C6: a completed enrichment for timestamp `t` merges into history
entry-by-entry: the length is unchanged; an entry whose timestamp equals `t`
has exactly its analysis field set and data, format, timestamp and type
untouched; an entry with a different timestamp is entirely unchanged; and
when no entry matches `t` the whole history is unchanged (silent no-op). -/
theorem C6_merge_frame_conditions (t : Nat) (a : AnalysisResult) (s : AppState)
    (h : List ScanResult) (i : Nat) (old : ScanResult) :
    (step s (Event.analysisComplete t a)).history = mergeAnalysis t a s.history ∧
    (mergeAnalysis t a h).length = h.length ∧
    (h[i]? = some old →
      (mergeAnalysis t a h)[i]?
        = some { data := old.data, format := old.format, timestamp := old.timestamp,
                 type := old.type,
                 analysis := if old.timestamp = t then some a else old.analysis }) ∧
    ((∀ item ∈ h, item.timestamp ≠ t) → mergeAnalysis t a h = h) := by
  refine ⟨rfl, by simp [mergeAnalysis], fun hi => ?_, mergeAnalysis_no_match t a h⟩
  simp only [mergeAnalysis, List.getElem?_map, hi, Option.map_some]
  obtain ⟨d, f, ts, ty, an⟩ := old
  by_cases hts : ts = t <;> simp [hts]

/-- Witness for C6: merging timestamp 1 into a two-entry history updates only
the matching entry's analysis and leaves the other entry untouched. -/
theorem C6_merge_frame_conditions_witness :
    (mergeAnalysis 1 sampleAnalysis [sampleResult, { sampleResult with timestamp := 2 }])[0]?
      = some { data := "hello", format := "QR_CODE", timestamp := 1, type := ScanType.text,
               analysis := if (1 : Nat) = 1 then some sampleAnalysis else none } ∧
    (mergeAnalysis 1 sampleAnalysis [sampleResult, { sampleResult with timestamp := 2 }])[1]?
      = some { data := "hello", format := "QR_CODE", timestamp := 2, type := ScanType.text,
               analysis := if (2 : Nat) = 1 then some sampleAnalysis else none } :=
  ⟨(C6_merge_frame_conditions 1 sampleAnalysis initState
      [sampleResult, { sampleResult with timestamp := 2 }] 0 sampleResult).2.2.1 rfl,
   (C6_merge_frame_conditions 1 sampleAnalysis initState
      [sampleResult, { sampleResult with timestamp := 2 }] 1
      { sampleResult with timestamp := 2 }).2.2.1 rfl⟩

/-- Claim C10: the enrichment merge is a map over the whole history keyed by
timestamp equality — every entry whose timestamp equals the completed
timestamp gets the analysis set, not only the most recent one. -/
theorem C10_merge_hits_all_duplicates (t : Nat) (a : AnalysisResult)
    (h : List ScanResult) (i : Nat) (old : ScanResult)
    (hi : h[i]? = some old) (ht : old.timestamp = t) :
    (mergeAnalysis t a h)[i]? = some { old with analysis := some a } := by
  simp [mergeAnalysis, List.getElem?_map, hi, ht]

/-- Witness for C10: two history entries share timestamp 7; the merge sets
the analysis on both of them. -/
theorem C10_merge_hits_all_duplicates_witness :
    (mergeAnalysis 7 sampleAnalysis
        [{ sampleResult with timestamp := 7 }, { sampleResult with data := "bye", timestamp := 7 }])[0]?
      = some { sampleResult with timestamp := 7, analysis := some sampleAnalysis } ∧
    (mergeAnalysis 7 sampleAnalysis
        [{ sampleResult with timestamp := 7 }, { sampleResult with data := "bye", timestamp := 7 }])[1]?
      = some { sampleResult with data := "bye", timestamp := 7, analysis := some sampleAnalysis } :=
  ⟨C10_merge_hits_all_duplicates 7 sampleAnalysis
      [{ sampleResult with timestamp := 7 }, { sampleResult with data := "bye", timestamp := 7 }]
      0 { sampleResult with timestamp := 7 } rfl rfl,
   C10_merge_hits_all_duplicates 7 sampleAnalysis
      [{ sampleResult with timestamp := 7 }, { sampleResult with data := "bye", timestamp := 7 }]
      1 { sampleResult with data := "bye", timestamp := 7 } rfl rfl⟩

end QRScanner
